import Mathlib

/-!
Verification development for the expo-text-extractor OCR bridge.

The embedding models the runtime layers of the repository:

* the TypeScript public surface (`index.ts`): uri preprocessing via a
  first-occurrence replace of the substring "file://" before forwarding
  to the native module;
* the iOS Swift native module (`ExpoTextExtractorModule.swift`): four
  async functions over an explicitly modelled environment (file loading,
  base64 decoding, the Vision framework's recognition results);
* the Android Kotlin native module (`ExpoTextExtractorModule.kt`): the
  same four functions over ML Kit recognition results.

Exact rational arithmetic (`ℚ`) stands in for the floating-point
coordinate and confidence computations; the formulas involved are exact
products and differences, so the rational model mirrors them faithfully.
Strings crossing the bridge are modelled as `String`; the uri argument of
the public surface is modelled as `List Char` so the character-level
replace semantics of JavaScript `String.replace` can be stated precisely.
-/

/-- Outcome of a bridged async call: the promise either resolves with a
value or rejects with an error carrying a code (the exception name /
CodedException code) and a human-readable message. -/
inductive CallOutcome (α : Type) where
  | resolved (value : α)
  | rejected (code : String) (message : String)
  deriving DecidableEq

/-- Boolean test that `pat` is an initial segment of the second list. -/
def listStartsWith : List Char → List Char → Bool
  | [], _ => true
  | _ :: _, [] => false
  | p :: ps, c :: cs => p == c && listStartsWith ps cs

/-- JavaScript `s.replace(pat, '')` with a string pattern: scanning left to
right, the first occurrence of `pat` is removed; when `pat` does not occur,
`s` is returned unchanged. -/
def replaceFirst (pat : List Char) : List Char → List Char
  | [] => []
  | c :: t =>
    if listStartsWith pat (c :: t) then (c :: t).drop pat.length
    else c :: replaceFirst pat t

/-- Boolean test that `pat` occurs as a contiguous subsequence. -/
def containsSeq (pat : List Char) : List Char → Bool
  | [] => listStartsWith pat []
  | c :: t => listStartsWith pat (c :: t) || containsSeq pat t

/-- The characters of the literal "file://" stripped in `index.ts`. -/
def fileScheme : List Char := "file://".toList

/-- The characters of the literal "content://" tested in the Kotlin module. -/
def contentScheme : List Char := "content://".toList

/-- `index.ts`: `const processedUri = uri.replace('file://', '')`. -/
def processedUri (uri : List Char) : List Char := replaceFirst fileScheme uri

namespace JS

/-- `index.ts` `extractTextFromImage`: strips the first "file://" occurrence
and forwards to the native module (abstracted as `native`). -/
def extractTextFromImage (native : List Char → CallOutcome (List String))
    (uri : List Char) : CallOutcome (List String) :=
  native (processedUri uri)

/-- `index.ts` `extractTextFromImageWithDetails`: same uri preprocessing,
forwarding to the native detail call (entry type left abstract since each
platform emits its own entry shape). -/
def extractTextFromImageWithDetails {Entry : Type}
    (native : List Char → CallOutcome (List Entry))
    (uri : List Char) : CallOutcome (List Entry) :=
  native (processedUri uri)

end JS

/-- iOS Vision normalized rect: coordinates are fractions of the image
size, origin at the bottom-left corner. -/
structure VNRect where
  x : ℚ
  y : ℚ
  width : ℚ
  height : ℚ
  deriving DecidableEq

/-- A unified pixel-space rect as emitted on the detail wire format. -/
structure PixelRect where
  x : ℚ
  y : ℚ
  width : ℚ
  height : ℚ
  deriving DecidableEq

/-- One recognition candidate of a Vision observation (`VNRecognizedText`):
its string and numeric confidence. -/
structure VNCandidate where
  string : String
  confidence : ℚ
  deriving DecidableEq

/-- `VNRecognizedTextObservation`: one detected text region, with its
normalized bounding box and its recognition candidates in rank order. -/
structure VNObservation where
  boundingBox : VNRect
  topCandidates : List VNCandidate
  deriving DecidableEq

/-- A decoded `CGImage` together with the observations the Vision request
reports for it; `results = none` models `request.results` failing the cast
to `[VNRecognizedTextObservation]`. -/
structure IOSImage where
  width : ℚ
  height : ℚ
  results : Option (List VNObservation)
  deriving DecidableEq

/-- Environment of an iOS file-based call: `Data(contentsOf:)` may throw
(carrying the system error's name and message), `UIImage`/`cgImage`
decoding may fail, or a decoded image is obtained. -/
inductive IOSFileInput where
  | loadFailure (errName : String) (errMessage : String)
  | undecodable
  | decoded (img : IOSImage)
  deriving DecidableEq

/-- Environment of an iOS base64 call: `Data(base64Encoded:)` may fail,
image decoding may fail, or a decoded image is obtained. -/
inductive IOSDataInput where
  | badBase64
  | undecodable
  | decoded (img : IOSImage)
  deriving DecidableEq

/-- A detail entry emitted by the iOS module: text, confidence, and the
pixel-space bounding box. -/
structure IOSDetailEntry where
  text : String
  confidence : ℚ
  boundingBox : PixelRect
  deriving DecidableEq

namespace IOS

/-- The Swift detail paths' coordinate conversion: normalized bottom-left
rect to pixel top-left rect given the image's pixel size `w × h`. -/
def convertRect (bb : VNRect) (w h : ℚ) : PixelRect :=
  { x := bb.x * w
    y := (1 - bb.y - bb.height) * h
    width := bb.width * w
    height := bb.height * h }

/-- `observation.topCandidates(1).first`. -/
def topCandidate (o : VNObservation) : Option VNCandidate :=
  (o.topCandidates.take 1).head?

/-- Swift `AsyncFunction "extractTextFromImage"` (file URL input): load
failures reject with the underlying error, an undecodable image throws
`Exception(name: "err", description: "err")`, a failed result cast
resolves `[]`, and otherwise the top candidate string of each observation
is collected (`compactMap` drops candidate-less observations). -/
def extractTextFromImage : IOSFileInput → CallOutcome (List String)
  | .loadFailure n m => .rejected n m
  | .undecodable => .rejected "err" "err"
  | .decoded img =>
    match img.results with
    | none => .resolved []
    | some obs => .resolved (obs.filterMap fun o => (topCandidate o).map (·.string))

/-- Swift `AsyncFunction "extractTextFromImageData"`. -/
def extractTextFromImageData : IOSDataInput → CallOutcome (List String)
  | .badBase64 => .rejected "INVALID_BASE64" "Invalid base64 data"
  | .undecodable => .rejected "INVALID_IMAGE" "Unable to create image from data"
  | .decoded img =>
    match img.results with
    | none => .resolved []
    | some obs => .resolved (obs.filterMap fun o => (topCandidate o).map (·.string))

/-- The body of the detail paths' `compactMap`: observations without a top
candidate are dropped; otherwise the candidate's string and confidence are
paired with the converted bounding box. -/
def detailOfObservation (w h : ℚ) (o : VNObservation) : Option IOSDetailEntry :=
  (topCandidate o).map fun c =>
    { text := c.string
      confidence := c.confidence
      boundingBox := convertRect o.boundingBox w h }

/-- Swift `AsyncFunction "extractTextFromImageWithDetails"`. -/
def extractTextFromImageWithDetails : IOSFileInput → CallOutcome (List IOSDetailEntry)
  | .loadFailure n m => .rejected n m
  | .undecodable => .rejected "INVALID_IMAGE" "Unable to create image from file"
  | .decoded img =>
    match img.results with
    | none => .resolved []
    | some obs => .resolved (obs.filterMap (detailOfObservation img.width img.height))

/-- Swift `AsyncFunction "extractTextFromImageDataWithDetails"`. -/
def extractTextFromImageDataWithDetails : IOSDataInput → CallOutcome (List IOSDetailEntry)
  | .badBase64 => .rejected "INVALID_BASE64" "Invalid base64 data"
  | .undecodable => .rejected "INVALID_IMAGE" "Unable to create image from data"
  | .decoded img =>
    match img.results with
    | none => .resolved []
    | some obs => .resolved (obs.filterMap (detailOfObservation img.width img.height))

end IOS

/-- `android.graphics.Rect`: pixel coordinates, origin top-left. -/
structure ARect where
  left : Int
  top : Int
  right : Int
  bottom : Int
  deriving DecidableEq

/-- `Rect.width()`. -/
def ARect.width (r : ARect) : Int := r.right - r.left

/-- `Rect.height()`. -/
def ARect.height (r : ARect) : Int := r.bottom - r.top

/-- ML Kit `Text.TextBlock` as consumed by the Kotlin module: its text,
its nullable confidence, and its nullable bounding box. -/
structure ATextBlock where
  text : String
  confidence : Option ℚ
  boundingBox : Option ARect
  deriving DecidableEq

/-- ML Kit `Text` result: the list of detected text blocks in SDK order. -/
structure AVisionText where
  textBlocks : List ATextBlock
  deriving DecidableEq

/-- Result of `recognizer.process(inputImage)`: either the success listener
fires with a `Text`, or the failure listener fires with an error message. -/
inductive NativeOutcome where
  | success (visionText : AVisionText)
  | failure (message : String)
  deriving DecidableEq

/-- The bounding-box map emitted by the Android detail paths: each field
is produced with `?.`, hence nullable. -/
structure NullableBox where
  x : Option Int
  y : Option Int
  width : Option Int
  height : Option Int
  deriving DecidableEq

/-- A detail entry emitted by the Android module. -/
structure AndroidDetailEntry where
  text : String
  confidence : ℚ
  boundingBox : NullableBox
  deriving DecidableEq

/-- Environment of an Android file call: the (already "file://"-stripped)
uri string, whether the file exists on disk (consulted only when the uri
does not start with "content://"), and what the recognizer reports. The
model assumes the React context is available and that `InputImage`
construction succeeds once the file exists. -/
structure AndroidFileReq where
  uriString : List Char
  fileExists : Bool
  recognition : NativeOutcome
  deriving DecidableEq

/-- Environment of an Android base64 call: `Base64.decode` either throws
(`base64Error = some msg`, caught by the outer handler) or yields bytes;
`BitmapFactory.decodeByteArray` then yields a bitmap or null. -/
structure AndroidDataReq where
  base64Error : Option String
  bitmapOk : Bool
  recognition : NativeOutcome
  deriving DecidableEq

namespace Android

/-- Kotlin `AsyncFunction "extractTextFromImage"`: a plain-path uri whose
file does not exist throws `Exception("File not found: ...")`, caught as
`CodedException("UNKNOWN_ERROR", ...)`; a recognizer failure rejects
`CodedException("err", error)`; success resolves the block texts. -/
def extractTextFromImage (req : AndroidFileReq) : CallOutcome (List String) :=
  if listStartsWith contentScheme req.uriString || req.fileExists then
    match req.recognition with
    | .success vt => .resolved (vt.textBlocks.map (·.text))
    | .failure msg => .rejected "err" msg
  else
    .rejected "UNKNOWN_ERROR" ("File not found: " ++ String.mk req.uriString)

/-- The per-block map of the Android detail listeners: confidence falls
back to `0.5f` when ML Kit omits it, and every bounding-box field is
projected with `?.` from the nullable native rect. -/
def detailOfBlock (b : ATextBlock) : AndroidDetailEntry :=
  { text := b.text
    confidence := b.confidence.getD (1 / 2)
    boundingBox :=
      { x := b.boundingBox.map (·.left)
        y := b.boundingBox.map (·.top)
        width := b.boundingBox.map ARect.width
        height := b.boundingBox.map ARect.height } }

/-- Kotlin `AsyncFunction "extractTextFromImageWithDetails"`. -/
def extractTextFromImageWithDetails (req : AndroidFileReq) :
    CallOutcome (List AndroidDetailEntry) :=
  if listStartsWith contentScheme req.uriString || req.fileExists then
    match req.recognition with
    | .success vt => .resolved (vt.textBlocks.map detailOfBlock)
    | .failure msg => .rejected "TEXT_RECOGNITION_ERROR" msg
  else
    .rejected "UNKNOWN_ERROR" ("File not found: " ++ String.mk req.uriString)

/-- Kotlin `AsyncFunction "extractTextFromImageData"`: a throwing
`Base64.decode` is caught as `UNKNOWN_ERROR`, a null bitmap rejects
`INVALID_IMAGE`, a recognizer failure rejects `TEXT_RECOGNITION_ERROR`. -/
def extractTextFromImageData (req : AndroidDataReq) : CallOutcome (List String) :=
  match req.base64Error with
  | some msg => .rejected "UNKNOWN_ERROR" msg
  | none =>
    if req.bitmapOk then
      match req.recognition with
      | .success vt => .resolved (vt.textBlocks.map (·.text))
      | .failure msg => .rejected "TEXT_RECOGNITION_ERROR" msg
    else
      .rejected "INVALID_IMAGE" "Unable to decode image from base64 data"

/-- Kotlin `AsyncFunction "extractTextFromImageDataWithDetails"`. -/
def extractTextFromImageDataWithDetails (req : AndroidDataReq) :
    CallOutcome (List AndroidDetailEntry) :=
  match req.base64Error with
  | some msg => .rejected "UNKNOWN_ERROR" msg
  | none =>
    if req.bitmapOk then
      match req.recognition with
      | .success vt => .resolved (vt.textBlocks.map detailOfBlock)
      | .failure msg => .rejected "TEXT_RECOGNITION_ERROR" msg
    else
      .rejected "INVALID_IMAGE" "Unable to decode image from base64 data"

end Android

/-- The nine error codes declared by `OCRErrorCode` in `types.unified.ts`. -/
def ocrErrorCodes : List String :=
  ["INVALID_IMAGE", "INVALID_BASE64", "PROCESSING_FAILED", "TIMEOUT",
   "UNSUPPORTED_FORMAT", "NETWORK_ERROR", "MODEL_NOT_AVAILABLE",
   "PERMISSION_DENIED", "UNKNOWN_ERROR"]

/-- The rejection codes the Android module can actually emit. -/
def androidRejectionCodes : List String :=
  ["UNKNOWN_ERROR", "INVALID_IMAGE", "err", "TEXT_RECOGNITION_ERROR"]

/-- A unified result entity carrying a confidence, as filtered by the
`minConfidence` option. -/
structure ConfEntity where
  text : String
  confidence : ℚ
  deriving DecidableEq

/-- Modelled from the spec: no implementation of the `minConfidence`
post-filter exists in the repository sources (`OCROptions` and the
`PlatformConverters` converter signatures in `types.unified.ts` are type
declarations only). Per spec §4.3 the options translator applies
`minConfidence` as a post-filter over the unified result, dropping
entities whose confidence is below the threshold. -/
def applyMinConfidence (minConfidence : ℚ) (entities : List ConfEntity) :
    List ConfEntity :=
  entities.filter fun e => decide (minConfidence ≤ e.confidence)

/-! ### Helper lemmas about the first-occurrence replace -/

theorem replaceFirst_cons (pat : List Char) (c : Char) (t : List Char) :
    replaceFirst pat (c :: t) =
      if listStartsWith pat (c :: t) then (c :: t).drop pat.length
      else c :: replaceFirst pat t := rfl

theorem listStartsWith_append (pat b : List Char) :
    listStartsWith pat (pat ++ b) = true := by
  induction pat with
  | nil => rfl
  | cons p ps ih => simp [listStartsWith, ih]

theorem replaceFirst_self_append (pat b : List Char) :
    replaceFirst pat (pat ++ b) = b := by
  match pat with
  | [] =>
    match b with
    | [] => rfl
    | c :: t =>
      rw [List.nil_append, replaceFirst_cons]
      simp [listStartsWith]
  | p :: ps =>
    show replaceFirst (p :: ps) ((p :: ps) ++ b) = b
    rw [List.cons_append, replaceFirst_cons, ← List.cons_append,
      listStartsWith_append]
    simp [List.drop_left]

theorem replaceFirst_first_occurrence (pat : List Char) :
    ∀ a b : List Char,
      (∀ i, i < a.length → listStartsWith pat ((a ++ pat ++ b).drop i) = false) →
      replaceFirst pat (a ++ pat ++ b) = a ++ b := by
  intro a
  induction a with
  | nil =>
    intro b _
    simpa using replaceFirst_self_append pat b
  | cons c a ih =>
    intro b h
    have h0 : listStartsWith pat (c :: (a ++ pat ++ b)) = false := by
      have := h 0 (Nat.succ_pos _)
      simpa using this
    show replaceFirst pat (c :: (a ++ pat ++ b)) = c :: (a ++ b)
    rw [replaceFirst_cons, h0]
    simp only [Bool.false_eq_true, if_false, List.cons.injEq, true_and]
    refine ih b fun i hi => ?_
    have := h (i + 1) (Nat.succ_lt_succ hi)
    simpa using this

theorem replaceFirst_not_contains (pat : List Char) :
    ∀ s : List Char, containsSeq pat s = false → replaceFirst pat s = s := by
  intro s
  induction s with
  | nil => intro _; rfl
  | cons c t ih =>
    intro h
    rw [containsSeq, Bool.or_eq_false_iff] at h
    rw [replaceFirst_cons, h.1]
    simp only [Bool.false_eq_true, if_false, List.cons.injEq, true_and]
    exact ih h.2

/-! ### Claim theorems -/

/-- C1: every detail entry's boundingBox is a pixel-space top-left rect:
the Android detail path maps each block through `detailOfBlock`, which
passes the native top-left pixel rect through (x = left, y = top,
width = right - left, height = bottom - top), and the iOS detail path maps
each observation through `detailOfObservation`, which transforms the
normalized bottom-left rect by x' = x·W, y' = (1 - y - h)·H, w' = w·W,
h' = h·H for the image pixel size W × H. -/
theorem c1_details_boundingBox_pixel_topLeft :
    (∀ (req : AndroidFileReq) (vt : AVisionText),
        req.recognition = .success vt →
        (listStartsWith contentScheme req.uriString || req.fileExists) = true →
        Android.extractTextFromImageWithDetails req =
          .resolved (vt.textBlocks.map Android.detailOfBlock)) ∧
    (∀ (b : ATextBlock) (r : ARect), b.boundingBox = some r →
        (Android.detailOfBlock b).boundingBox =
          ⟨some r.left, some r.top, some (r.right - r.left), some (r.bottom - r.top)⟩) ∧
    (∀ (img : IOSImage) (obs : List VNObservation),
        img.results = some obs →
        IOS.extractTextFromImageWithDetails (.decoded img) =
          .resolved (obs.filterMap (IOS.detailOfObservation img.width img.height))) ∧
    (∀ (o : VNObservation) (e : IOSDetailEntry) (w h : ℚ),
        IOS.detailOfObservation w h o = some e →
        e.boundingBox =
          ⟨o.boundingBox.x * w, (1 - o.boundingBox.y - o.boundingBox.height) * h,
            o.boundingBox.width * w, o.boundingBox.height * h⟩) := by
  refine ⟨?_, ?_, ?_, ?_⟩
  · intro req vt h1 h2
    simp [Android.extractTextFromImageWithDetails, h2, h1]
  · intro b r h
    simp [Android.detailOfBlock, h, ARect.width, ARect.height]
  · intro img obs h
    simp [IOS.extractTextFromImageWithDetails, h]
  · intro o e w h hmap
    rcases htc : IOS.topCandidate o with _ | c
    · simp [IOS.detailOfObservation, htc] at hmap
    · simp [IOS.detailOfObservation, htc] at hmap
      rw [← hmap]
      simp [IOS.convertRect]

/-- Witness for C1 at concrete inputs on both platforms. -/
theorem c1_details_boundingBox_pixel_topLeft_witness :
    Android.extractTextFromImageWithDetails
        ⟨"a.png".toList, true, NativeOutcome.success ⟨[]⟩⟩ =
      CallOutcome.resolved [] ∧
    (Android.detailOfBlock ⟨"hi", some (9/10), some ⟨3, 4, 10, 24⟩⟩).boundingBox =
      ⟨some 3, some 4, some 7, some 20⟩ ∧
    IOS.extractTextFromImageWithDetails (.decoded ⟨200, 100, some []⟩) =
      CallOutcome.resolved [] ∧
    (⟨"t", 1, IOS.convertRect ⟨1/4, 1/4, 1/2, 1/2⟩ 200 100⟩ : IOSDetailEntry).boundingBox =
      ⟨1/4 * 200, (1 - 1/4 - 1/2) * 100, 1/2 * 200, 1/2 * 100⟩ := by
  refine ⟨?_, ?_, ?_, ?_⟩
  · exact c1_details_boundingBox_pixel_topLeft.1
      ⟨"a.png".toList, true, NativeOutcome.success ⟨[]⟩⟩ ⟨[]⟩ rfl rfl
  · exact c1_details_boundingBox_pixel_topLeft.2.1
      ⟨"hi", some (9/10), some ⟨3, 4, 10, 24⟩⟩ ⟨3, 4, 10, 24⟩ rfl
  · exact c1_details_boundingBox_pixel_topLeft.2.2.1 ⟨200, 100, some []⟩ [] rfl
  · exact c1_details_boundingBox_pixel_topLeft.2.2.2
      ⟨⟨1/4, 1/4, 1/2, 1/2⟩, [⟨"t", 1⟩]⟩
      ⟨"t", 1, IOS.convertRect ⟨1/4, 1/4, 1/2, 1/2⟩ 200 100⟩ 200 100 rfl

/-- C2 counterexample: on the synthetic normalized rect
{x: 1/4, y: 1/4, width: 1/2, height: 1/2} and image size 200 × 100, the
coordinate normalizer does not yield {x: 50, y: 0, width: 100, height: 50}
as the claim states. -/
theorem c2_normalizer_counterexample :
    IOS.convertRect ⟨1/4, 1/4, 1/2, 1/2⟩ 200 100 ≠ (⟨50, 0, 100, 50⟩ : PixelRect) := by
  simp only [IOS.convertRect, ne_eq, PixelRect.mk.injEq]
  norm_num

/-- C2 amended: the normalizer yields {x: 50, y: 25, width: 100,
height: 50}, the y coordinate being (1 - 1/4 - 1/2) · 100 = 25. -/
theorem c2_normalizer_round_trip :
    IOS.convertRect ⟨1/4, 1/4, 1/2, 1/2⟩ 200 100 = (⟨50, 25, 100, 50⟩ : PixelRect) := by
  simp only [IOS.convertRect, PixelRect.mk.injEq]
  norm_num

/-- C3 counterexample: a non-existent plain file path on Android rejects
with code UNKNOWN_ERROR, not INVALID_IMAGE. -/
theorem c3_missing_file_counterexample :
    Android.extractTextFromImage
        ⟨"/tmp/missing.jpg".toList, false, NativeOutcome.success ⟨[]⟩⟩ =
      CallOutcome.rejected "UNKNOWN_ERROR" "File not found: /tmp/missing.jpg" ∧
    ("UNKNOWN_ERROR" : String) ≠ "INVALID_IMAGE" := by
  exact ⟨rfl, by decide⟩

/-- C3 amended: invalid inputs are rejected before the native recognizer
is consulted (the outcome is the same for every recognizer outcome `rec`),
but with these codes: Android rejects a missing plain-path file and a
throwing base64 decode with UNKNOWN_ERROR and undecodable base64 bytes
with INVALID_IMAGE; iOS rejects undecodable base64 with INVALID_BASE64
and an undecodable image with INVALID_IMAGE (plain "err" on the simple
file path). -/
theorem c3_fail_fast_before_native :
    (∀ (uri : List Char) (rec : NativeOutcome),
        listStartsWith contentScheme uri = false →
        Android.extractTextFromImage ⟨uri, false, rec⟩ =
          .rejected "UNKNOWN_ERROR" ("File not found: " ++ String.mk uri)) ∧
    (∀ (uri : List Char) (rec : NativeOutcome),
        listStartsWith contentScheme uri = false →
        Android.extractTextFromImageWithDetails ⟨uri, false, rec⟩ =
          .rejected "UNKNOWN_ERROR" ("File not found: " ++ String.mk uri)) ∧
    (∀ (m : String) (bOk : Bool) (rec : NativeOutcome),
        Android.extractTextFromImageData ⟨some m, bOk, rec⟩ =
          .rejected "UNKNOWN_ERROR" m) ∧
    (∀ (m : String) (bOk : Bool) (rec : NativeOutcome),
        Android.extractTextFromImageDataWithDetails ⟨some m, bOk, rec⟩ =
          .rejected "UNKNOWN_ERROR" m) ∧
    (∀ (rec : NativeOutcome),
        Android.extractTextFromImageData ⟨none, false, rec⟩ =
          .rejected "INVALID_IMAGE" "Unable to decode image from base64 data") ∧
    (IOS.extractTextFromImageData .badBase64 =
      .rejected "INVALID_BASE64" "Invalid base64 data") ∧
    (IOS.extractTextFromImageDataWithDetails .badBase64 =
      .rejected "INVALID_BASE64" "Invalid base64 data") ∧
    (IOS.extractTextFromImageData .undecodable =
      .rejected "INVALID_IMAGE" "Unable to create image from data") ∧
    (IOS.extractTextFromImageWithDetails .undecodable =
      .rejected "INVALID_IMAGE" "Unable to create image from file") := by
  refine ⟨?_, ?_, ?_, ?_, fun _ => rfl, rfl, rfl, rfl, rfl⟩
  · intro uri rec h
    simp [Android.extractTextFromImage, h]
  · intro uri rec h
    simp [Android.extractTextFromImageWithDetails, h]
  · intro m bOk rec
    rfl
  · intro m bOk rec
    rfl

/-- Witness for C3 amended at concrete inputs. -/
theorem c3_fail_fast_before_native_witness :
    Android.extractTextFromImage
        ⟨"/x.png".toList, false, NativeOutcome.failure "native says no"⟩ =
      CallOutcome.rejected "UNKNOWN_ERROR" "File not found: /x.png" ∧
    Android.extractTextFromImageData
        ⟨some "bad base-64", true, NativeOutcome.success ⟨[]⟩⟩ =
      CallOutcome.rejected "UNKNOWN_ERROR" "bad base-64" := by
  constructor
  · exact c3_fail_fast_before_native.1 "/x.png".toList (.failure "native says no") (by decide)
  · exact c3_fail_fast_before_native.2.2.1 "bad base-64" true (.success ⟨[]⟩)

/-- C4 counterexample: a recognizer failure on the Android simple file path
rejects with code "err", which is outside the nine-code OCRErrorCode
taxonomy. -/
theorem c4_error_code_outside_taxonomy :
    Android.extractTextFromImage
        ⟨"b.png".toList, true, NativeOutcome.failure "recognition failed"⟩ =
      CallOutcome.rejected "err" "recognition failed" ∧
    "err" ∉ ocrErrorCodes := by
  exact ⟨rfl, by decide⟩

/-- C4 amended: every failure of the four operations surfaces as a
rejection carrying a code and a message, but the codes are not confined
to the nine-code taxonomy: the Android module emits codes from
{UNKNOWN_ERROR, INVALID_IMAGE, err, TEXT_RECOGNITION_ERROR}, and the iOS
module emits INVALID_BASE64 / INVALID_IMAGE / "err" or passes the
underlying load error through unchanged on file paths. -/
theorem c4_rejection_code_inventory :
    (∀ (req : AndroidFileReq) (c m : String),
        Android.extractTextFromImage req = .rejected c m →
        c = "UNKNOWN_ERROR" ∨ c = "err") ∧
    (∀ (req : AndroidFileReq) (c m : String),
        Android.extractTextFromImageWithDetails req = .rejected c m →
        c = "UNKNOWN_ERROR" ∨ c = "TEXT_RECOGNITION_ERROR") ∧
    (∀ (req : AndroidDataReq) (c m : String),
        Android.extractTextFromImageData req = .rejected c m →
        c ∈ androidRejectionCodes) ∧
    (∀ (req : AndroidDataReq) (c m : String),
        Android.extractTextFromImageDataWithDetails req = .rejected c m →
        c ∈ androidRejectionCodes) ∧
    (∀ (inp : IOSFileInput) (c m : String),
        IOS.extractTextFromImage inp = .rejected c m →
        c = "err" ∨ inp = .loadFailure c m) ∧
    (∀ (inp : IOSFileInput) (c m : String),
        IOS.extractTextFromImageWithDetails inp = .rejected c m →
        c = "INVALID_IMAGE" ∨ inp = .loadFailure c m) ∧
    (∀ (inp : IOSDataInput) (c m : String),
        IOS.extractTextFromImageData inp = .rejected c m →
        c = "INVALID_BASE64" ∨ c = "INVALID_IMAGE") ∧
    (∀ (inp : IOSDataInput) (c m : String),
        IOS.extractTextFromImageDataWithDetails inp = .rejected c m →
        c = "INVALID_BASE64" ∨ c = "INVALID_IMAGE") := by
  refine ⟨?_, ?_, ?_, ?_, ?_, ?_, ?_, ?_⟩
  · intro req c m h
    unfold Android.extractTextFromImage at h
    split at h
    · split at h
      · simp at h
      · injection h with h1 _
        exact Or.inr h1.symm
    · injection h with h1 _
      exact Or.inl h1.symm
  · intro req c m h
    unfold Android.extractTextFromImageWithDetails at h
    split at h
    · split at h
      · simp at h
      · injection h with h1 _
        exact Or.inr h1.symm
    · injection h with h1 _
      exact Or.inl h1.symm
  · intro req c m h
    unfold Android.extractTextFromImageData at h
    split at h
    · injection h with h1 _
      simp [androidRejectionCodes, ← h1]
    · split at h
      · split at h
        · simp at h
        · injection h with h1 _
          simp [androidRejectionCodes, ← h1]
      · injection h with h1 _
        simp [androidRejectionCodes, ← h1]
  · intro req c m h
    unfold Android.extractTextFromImageDataWithDetails at h
    split at h
    · injection h with h1 _
      simp [androidRejectionCodes, ← h1]
    · split at h
      · split at h
        · simp at h
        · injection h with h1 _
          simp [androidRejectionCodes, ← h1]
      · injection h with h1 _
        simp [androidRejectionCodes, ← h1]
  · intro inp c m h
    cases inp with
    | loadFailure n msg =>
      injection h with h1 h2
      exact Or.inr (by rw [h1, h2])
    | undecodable =>
      injection h with h1 _
      exact Or.inl h1.symm
    | decoded img =>
      rcases hres : img.results with _ | obs <;>
        simp [IOS.extractTextFromImage, hres] at h
  · intro inp c m h
    cases inp with
    | loadFailure n msg =>
      injection h with h1 h2
      exact Or.inr (by rw [h1, h2])
    | undecodable =>
      injection h with h1 _
      exact Or.inl h1.symm
    | decoded img =>
      rcases hres : img.results with _ | obs <;>
        simp [IOS.extractTextFromImageWithDetails, hres] at h
  · intro inp c m h
    cases inp with
    | badBase64 =>
      injection h with h1 _
      exact Or.inl h1.symm
    | undecodable =>
      injection h with h1 _
      exact Or.inr h1.symm
    | decoded img =>
      rcases hres : img.results with _ | obs <;>
        simp [IOS.extractTextFromImageData, hres] at h
  · intro inp c m h
    cases inp with
    | badBase64 =>
      injection h with h1 _
      exact Or.inl h1.symm
    | undecodable =>
      injection h with h1 _
      exact Or.inr h1.symm
    | decoded img =>
      rcases hres : img.results with _ | obs <;>
        simp [IOS.extractTextFromImageDataWithDetails, hres] at h

/-- Witness for C4 amended at concrete rejecting inputs. -/
theorem c4_rejection_code_inventory_witness :
    (("err" : String) = "UNKNOWN_ERROR" ∨ ("err" : String) = "err") ∧
    ("TEXT_RECOGNITION_ERROR" : String) ∈ androidRejectionCodes ∧
    (("INVALID_BASE64" : String) = "INVALID_BASE64" ∨
      ("INVALID_BASE64" : String) = "INVALID_IMAGE") := by
  refine ⟨?_, ?_, ?_⟩
  · exact c4_rejection_code_inventory.1
      ⟨"b.png".toList, true, NativeOutcome.failure "boom"⟩ "err" "boom" rfl
  · exact c4_rejection_code_inventory.2.2.1
      ⟨none, true, NativeOutcome.failure "boom"⟩ "TEXT_RECOGNITION_ERROR" "boom" rfl
  · exact c4_rejection_code_inventory.2.2.2.2.2.2.1 .badBase64 "INVALID_BASE64"
      "Invalid base64 data" rfl

/-- C5: the minConfidence option acts as a post-filter over the unified
result: the output is a sublist of the input (original order), an input
entity is retained exactly when its confidence is at or above the
threshold, and on confidences {0.95, 0.5, 0.99} with threshold 0.9 the
first and third entities are retained in that order. -/
theorem c5_minConfidence_post_filter :
    (∀ (t : ℚ) (es : List ConfEntity),
        List.Sublist (applyMinConfidence t es) es) ∧
    (∀ (t : ℚ) (es : List ConfEntity) (e : ConfEntity),
        e ∈ es → (e ∈ applyMinConfidence t es ↔ t ≤ e.confidence)) ∧
    (applyMinConfidence (9/10)
        [⟨"a", 95/100⟩, ⟨"b", 5/10⟩, ⟨"c", 99/100⟩] =
      [⟨"a", 95/100⟩, ⟨"c", 99/100⟩]) := by
  refine ⟨?_, ?_, ?_⟩
  · intro t es
    exact List.filter_sublist es
  · intro t es e he
    simp [applyMinConfidence, List.mem_filter, he]
  · norm_num [applyMinConfidence, List.filter_cons, List.filter_nil]

/-- Witness for C5 at the concrete threshold and entities. -/
theorem c5_minConfidence_post_filter_witness :
    (⟨"a", 95/100⟩ : ConfEntity) ∈
        applyMinConfidence (9/10)
          [⟨"a", 95/100⟩, ⟨"b", 5/10⟩, ⟨"c", 99/100⟩] ↔
      (9/10 : ℚ) ≤ 95/100 := by
  exact c5_minConfidence_post_filter.2.1 (9/10)
    [⟨"a", 95/100⟩, ⟨"b", 5/10⟩, ⟨"c", 99/100⟩] ⟨"a", 95/100⟩
    (List.mem_cons_self _ _)

/-- C6: on the Android detail paths a block with absent native confidence
gets exactly the documented fallback 0.5, a present confidence is passed
through unchanged, and the detail call maps every block through this
single conversion. -/
theorem c6_confidence_fallback :
    (∀ (b : ATextBlock), b.confidence = none →
        (Android.detailOfBlock b).confidence = 1 / 2) ∧
    (∀ (b : ATextBlock) (c : ℚ), b.confidence = some c →
        (Android.detailOfBlock b).confidence = c) ∧
    (∀ (req : AndroidDataReq) (vt : AVisionText),
        req.base64Error = none → req.bitmapOk = true →
        req.recognition = .success vt →
        Android.extractTextFromImageDataWithDetails req =
          .resolved (vt.textBlocks.map Android.detailOfBlock)) := by
  refine ⟨?_, ?_, ?_⟩
  · intro b h
    simp [Android.detailOfBlock, h]
  · intro b c h
    simp [Android.detailOfBlock, h]
  · intro req vt h1 h2 h3
    simp [Android.extractTextFromImageDataWithDetails, h1, h2, h3]

/-- Witness for C6 at concrete blocks. -/
theorem c6_confidence_fallback_witness :
    (Android.detailOfBlock ⟨"x", none, none⟩).confidence = 1 / 2 ∧
    (Android.detailOfBlock ⟨"y", some (3/4), none⟩).confidence = 3/4 ∧
    Android.extractTextFromImageDataWithDetails
        ⟨none, true, NativeOutcome.success ⟨[⟨"x", none, none⟩]⟩⟩ =
      CallOutcome.resolved [Android.detailOfBlock ⟨"x", none, none⟩] := by
  refine ⟨?_, ?_, ?_⟩
  · exact c6_confidence_fallback.1 ⟨"x", none, none⟩ rfl
  · exact c6_confidence_fallback.2.1 ⟨"y", some (3/4), none⟩ (3/4) rfl
  · exact c6_confidence_fallback.2.2
      ⟨none, true, NativeOutcome.success ⟨[⟨"x", none, none⟩]⟩⟩
      ⟨[⟨"x", none, none⟩]⟩ rfl rfl rfl

theorem length_filterMap_eq_length_filter {α β : Type} (f : α → Option β) :
    ∀ l : List α, (l.filterMap f).length = (l.filter fun a => (f a).isSome).length := by
  intro l
  induction l with
  | nil => rfl
  | cons x t ih =>
    cases hx : f x <;>
      simp [List.filterMap_cons, List.filter_cons, hx, ih]

/-- C7 counterexample: on iOS, a valid image with one detected observation
that has no recognition candidate resolves with an empty list, so the
returned length (0) differs from the number of detected regions (1). -/
theorem c7_candidateless_observation_counterexample :
    IOS.extractTextFromImage
        (.decoded ⟨100, 100, some [⟨⟨0, 0, 1, 1⟩, []⟩]⟩) =
      CallOutcome.resolved ([] : List String) ∧
    [(⟨⟨0, 0, 1, 1⟩, []⟩ : VNObservation)].length = 1 ∧
    ([] : List String).length ≠ 1 := by
  exact ⟨rfl, rfl, by decide⟩

/-- C7 amended: on Android the simple call returns exactly one entry per
detected text block, in SDK order, each entry being the block's text
passed through unchanged; on iOS the returned length equals the number of
detected observations that carry at least one recognition candidate
(candidate-less observations are dropped by compactMap), each entry being
the top candidate's string passed through unchanged. -/
theorem c7_one_entry_per_detected_region :
    (∀ (req : AndroidFileReq) (vt : AVisionText),
        req.recognition = .success vt →
        (listStartsWith contentScheme req.uriString || req.fileExists) = true →
        Android.extractTextFromImage req =
          .resolved (vt.textBlocks.map (·.text)) ∧
        (vt.textBlocks.map (·.text)).length = vt.textBlocks.length) ∧
    (∀ (img : IOSImage) (obs : List VNObservation),
        img.results = some obs →
        IOS.extractTextFromImage (.decoded img) =
          .resolved (obs.filterMap fun o => (IOS.topCandidate o).map (·.string)) ∧
        (obs.filterMap fun o => (IOS.topCandidate o).map (·.string)).length =
          (obs.filter fun o => (IOS.topCandidate o).isSome).length) := by
  constructor
  · intro req vt h1 h2
    refine ⟨?_, List.length_map _ _⟩
    simp [Android.extractTextFromImage, h1, h2]
  · intro img obs h
    refine ⟨?_, ?_⟩
    · simp [IOS.extractTextFromImage, h]
    · simp [length_filterMap_eq_length_filter]

/-- Witness for C7 amended at concrete inputs. -/
theorem c7_one_entry_per_detected_region_witness :
    Android.extractTextFromImage
        ⟨"a.png".toList, true, NativeOutcome.success ⟨[⟨"hello", none, none⟩]⟩⟩ =
      CallOutcome.resolved ["hello"] ∧
    IOS.extractTextFromImage
        (.decoded ⟨10, 10, some [⟨⟨0, 0, 1, 1⟩, [⟨"hi", 1⟩]⟩]⟩) =
      CallOutcome.resolved ["hi"] := by
  constructor
  · exact (c7_one_entry_per_detected_region.1
      ⟨"a.png".toList, true, NativeOutcome.success ⟨[⟨"hello", none, none⟩]⟩⟩
      ⟨[⟨"hello", none, none⟩]⟩ rfl rfl).1
  · exact (c7_one_entry_per_detected_region.2
      ⟨10, 10, some [⟨⟨0, 0, 1, 1⟩, [⟨"hi", 1⟩]⟩]⟩
      [⟨⟨0, 0, 1, 1⟩, [⟨"hi", 1⟩]⟩] rfl).1

/-- C8 counterexample: on a zero-size image the detail call does not fail
with INVALID_IMAGE; it resolves successfully, the normalizer mapping the
observation's rect to the all-zero pixel rect. -/
theorem c8_zero_size_counterexample :
    IOS.extractTextFromImageWithDetails
        (.decoded ⟨0, 0, some [⟨⟨1/4, 1/4, 1/2, 1/2⟩, [⟨"t", 1⟩]⟩]⟩) =
      CallOutcome.resolved [⟨"t", 1, ⟨0, 0, 0, 0⟩⟩] := by
  norm_num [IOS.extractTextFromImageWithDetails, List.filterMap_cons,
    List.filterMap_nil, IOS.detailOfObservation, IOS.topCandidate,
    IOS.convertRect]

/-- C8 amended: the normalizer performs no zero-size validation: with
image size 0 × 0 every rect maps to the all-zero pixel rect (finite exact
values, no error), and the detail call on such an image resolves. -/
theorem c8_zero_size_no_failure :
    (∀ (r : VNRect), IOS.convertRect r 0 0 = ⟨0, 0, 0, 0⟩) ∧
    (∀ (obs : List VNObservation),
        IOS.extractTextFromImageWithDetails (.decoded ⟨0, 0, some obs⟩) =
          .resolved (obs.filterMap (IOS.detailOfObservation 0 0))) := by
  constructor
  · intro r
    simp [IOS.convertRect]
  · intro obs
    rfl

/-- C9: both uri-taking surface functions forward the uri with exactly the
first occurrence of "file://" removed, wherever it appears: when the
first occurrence sits after a prefix `a` (mid-string allowed) the native
module receives `a ++ b` with any later occurrences inside `b` untouched,
and a uri without the substring is forwarded verbatim. -/
theorem c9_strip_first_file_scheme :
    (∀ (native : List Char → CallOutcome (List String)) (a b : List Char),
        (∀ i, i < a.length →
          listStartsWith fileScheme ((a ++ fileScheme ++ b).drop i) = false) →
        JS.extractTextFromImage native (a ++ fileScheme ++ b) = native (a ++ b)) ∧
    (∀ (native : List Char → CallOutcome (List String)) (uri : List Char),
        containsSeq fileScheme uri = false →
        JS.extractTextFromImage native uri = native uri) ∧
    (∀ (Entry : Type) (native : List Char → CallOutcome (List Entry)) (a b : List Char),
        (∀ i, i < a.length →
          listStartsWith fileScheme ((a ++ fileScheme ++ b).drop i) = false) →
        JS.extractTextFromImageWithDetails native (a ++ fileScheme ++ b) =
          native (a ++ b)) ∧
    (∀ (Entry : Type) (native : List Char → CallOutcome (List Entry)) (uri : List Char),
        containsSeq fileScheme uri = false →
        JS.extractTextFromImageWithDetails native uri = native uri) := by
  refine ⟨?_, ?_, ?_, ?_⟩
  · intro native a b h
    exact congrArg native (replaceFirst_first_occurrence fileScheme a b h)
  · intro native uri h
    exact congrArg native (replaceFirst_not_contains fileScheme uri h)
  · intro Entry native a b h
    exact congrArg native (replaceFirst_first_occurrence fileScheme a b h)
  · intro Entry native uri h
    exact congrArg native (replaceFirst_not_contains fileScheme uri h)

/-- Witness for C9: a mid-string occurrence is removed with the later
occurrence kept, and a scheme-free uri passes verbatim. -/
theorem c9_strip_first_file_scheme_witness :
    JS.extractTextFromImage (fun s => CallOutcome.resolved [String.mk s])
        ("abc".toList ++ fileScheme ++ "deffile://g".toList) =
      CallOutcome.resolved ["abcdeffile://g"] ∧
    JS.extractTextFromImage (fun s => CallOutcome.resolved [String.mk s])
        "nothing-here".toList =
      CallOutcome.resolved ["nothing-here"] := by
  constructor
  · have h := c9_strip_first_file_scheme.1
      (fun s => CallOutcome.resolved [String.mk s])
      "abc".toList "deffile://g".toList (by decide)
    rw [h]
    rfl
  · have h := c9_strip_first_file_scheme.2.1
      (fun s => CallOutcome.resolved [String.mk s])
      "nothing-here".toList (by decide)
    rw [h]
    rfl

/-- C10: an Android text block without a native bounding box still yields
a successful entry whose box fields are all null: the detail call resolves
with every block mapped, and a box-less block maps to the all-null box
rather than failing or substituting a default rectangle. -/
theorem c10_null_boundingBox_preserved :
    (∀ (b : ATextBlock), b.boundingBox = none →
        (Android.detailOfBlock b).boundingBox = ⟨none, none, none, none⟩) ∧
    (∀ (req : AndroidFileReq) (vt : AVisionText),
        req.recognition = .success vt →
        (listStartsWith contentScheme req.uriString || req.fileExists) = true →
        Android.extractTextFromImageWithDetails req =
          .resolved (vt.textBlocks.map Android.detailOfBlock)) ∧
    (∀ (req : AndroidDataReq) (vt : AVisionText),
        req.base64Error = none → req.bitmapOk = true →
        req.recognition = .success vt →
        Android.extractTextFromImageDataWithDetails req =
          .resolved (vt.textBlocks.map Android.detailOfBlock)) := by
  refine ⟨?_, ?_, ?_⟩
  · intro b h
    simp [Android.detailOfBlock, h]
  · intro req vt h1 h2
    simp [Android.extractTextFromImageWithDetails, h1, h2]
  · intro req vt h1 h2 h3
    simp [Android.extractTextFromImageDataWithDetails, h1, h2, h3]

/-- Witness for C10 at a concrete box-less block. -/
theorem c10_null_boundingBox_preserved_witness :
    (Android.detailOfBlock ⟨"x", some 1, none⟩).boundingBox =
      ⟨none, none, none, none⟩ ∧
    Android.extractTextFromImageWithDetails
        ⟨"p.png".toList, true, NativeOutcome.success ⟨[⟨"x", some 1, none⟩]⟩⟩ =
      CallOutcome.resolved [Android.detailOfBlock ⟨"x", some 1, none⟩] := by
  constructor
  · exact c10_null_boundingBox_preserved.1 ⟨"x", some 1, none⟩ rfl
  · exact c10_null_boundingBox_preserved.2.1
      ⟨"p.png".toList, true, NativeOutcome.success ⟨[⟨"x", some 1, none⟩]⟩⟩
      ⟨[⟨"x", some 1, none⟩]⟩ rfl rfl
